import Mathlib

/-!
Verification of the location-acquisition and signal-validation pipeline of the
ParkFinder repository (the `useLocationTracking` hook).  JavaScript numbers are
modelled as exact rationals (`ℚ`) wherever the source only performs rational
arithmetic and comparisons on them (coordinates, accuracies, speeds,
timestamps, thresholds), and as real numbers (`ℝ`) where the source feeds them
through transcendental functions (headings through sin/cos/atan2, great-circle
distances through the haversine formula).  `null`/`undefined` optional values
are modelled with `Option`; JavaScript truthiness (`x || y`, `!x`, `if (x)`)
is modelled explicitly, including the fact that the number `0` is falsy.
NaN and Infinity do not exist in the exact model, so the source's
`isFinite`-based rejection rule (rule 2 of `isValidLocation`) has an
identically-false condition and is noted in a comment where it occurs.
-/

open Real

/-- Signal-quality tier published in each snapshot
(source: the `signalStrength` union type of `LocationData`). -/
inductive SignalStrength
  | excellent
  | good
  | poor
  | lost
deriving DecidableEq

/-- Entry of the bounded position history kept for pattern analysis
(source: `locationHistory` ref, entries `{lat, lng, timestamp}`). -/
structure PosEntry where
  lat : ℚ
  lng : ℚ
  timestamp : ℚ
deriving DecidableEq

/-- Published location snapshot (source: interface `LocationData`).
Headings are real-valued because they flow through the circular-mean
trigonometry; all other numeric fields stay rational. -/
structure LocationData where
  latitude : ℚ
  longitude : ℚ
  heading : ℝ
  smoothedHeading : ℝ
  accuracy : Option ℚ
  speed : Option ℚ
  timestamp : ℚ
  isMoving : Bool
  isValid : Bool
  signalStrength : SignalStrength

/-- Raw fix delivered by the external location provider
(source: `position.coords` plus `position.timestamp` as consumed by the hook). -/
structure RawFix where
  latitude : ℚ
  longitude : ℚ
  accuracy : Option ℚ
  heading : Option ℝ
  speed : Option ℚ
  timestamp : ℚ

/-- Complete mutable state of one tracking session: the React state cells
(`location`, `hasPermission`, `isTracking`, `error`) and the refs
(`headingHistory`, `lastValidLocation`, `locationHistory`,
`consecutiveRejectionsCount`).  The two provider subscriptions are external
resources and carry no data, so they are not represented. -/
structure TrackingState where
  location : Option LocationData
  hasPermission : Option Bool
  isTracking : Bool
  error : Option String
  headingHistory : List ℝ
  lastValidLocation : Option LocationData
  locationHistory : List PosEntry
  consecutiveRejections : ℕ

/-- Recognised options of the hook with their defaults
(source: destructuring of `UseLocationTrackingOptions`).  Only the two options
that affect the modelled data flow are kept; `enableHighAccuracy`,
`distanceInterval` and `timeInterval` are passed through to the provider and
never read again. -/
structure TrackingOptions where
  minAccuracy : ℚ
  headingSamples : ℕ

/-- Default option values (source: `minAccuracy = 30`, `headingSamples = 5`). -/
def optsD : TrackingOptions := ⟨30, 5⟩

/-- JavaScript truthiness of an optional number: `undefined`, `null` and `0`
are falsy (NaN, the remaining falsy number, has no counterpart in the exact
model). -/
def qTruthy (a : Option ℚ) : Prop :=
  match a with
  | none => False
  | some x => x ≠ 0

instance (a : Option ℚ) : Decidable (qTruthy a) := by
  unfold qTruthy
  cases a with
  | none => exact inferInstanceAs (Decidable False)
  | some x => exact inferInstanceAs (Decidable (x ≠ 0))

/-- Model of the JavaScript pattern `x || undefined` on an optional number:
a falsy value (absent or zero) becomes `undefined` (source: the snapshot
fields `accuracy: ... || undefined` and `speed: ... || undefined`). -/
def jsUndef (a : Option ℚ) : Option ℚ :=
  match a with
  | none => none
  | some x => if x = 0 then none else some x

/-- Model of the JavaScript pattern `x || d` on an optional real number:
the fallback `d` is used when `x` is absent or zero (source: the heading
fallback chains such as `coords.heading || 0`). -/
noncomputable def jsOrR (a : Option ℝ) (d : ℝ) : ℝ :=
  match a with
  | none => d
  | some x => if x = 0 then d else x

/-- Signal classifier (source: `getSignalStrength`).  The rejection streak is
consulted first; then `if (!accuracy) return 'lost'` makes an absent *or zero*
accuracy produce `lost` (JavaScript truthiness); finally the accuracy bands
5 / 15 / 50 apply. -/
def getSignalStrength (accuracy : Option ℚ) (consecutiveRejections : ℕ) :
    SignalStrength :=
  if 10 < consecutiveRejections then SignalStrength.lost
  else if 5 < consecutiveRejections then SignalStrength.poor
  else if ¬ qTruthy accuracy then SignalStrength.lost
  else if accuracy.getD 0 ≤ 5 then SignalStrength.excellent
  else if accuracy.getD 0 ≤ 15 then SignalStrength.good
  else if accuracy.getD 0 ≤ 50 then SignalStrength.poor
  else SignalStrength.lost

/-- Truncation toward zero, the rounding used by the JavaScript `%` operator. -/
noncomputable def jsTrunc (x : ℝ) : ℝ :=
  if 0 ≤ x then (⌊x⌋ : ℝ) else (⌈x⌉ : ℝ)

/-- The JavaScript remainder operator `a % b` on numbers: remainder of the
division truncated toward zero, so the result has the sign of `a`. -/
noncomputable def jsMod (a b : ℝ) : ℝ :=
  a - b * jsTrunc (a / b)

/-- Normalisation of a heading to `[0, 360)` (source: the expression
`((newHeading % 360) + 360) % 360` in `smoothHeading`). -/
noncomputable def normalize360 (h : ℝ) : ℝ :=
  jsMod (jsMod h 360 + 360) 360

/-- Two-argument arctangent as computed by JavaScript `Math.atan2(y, x)`,
with range `(-pi, pi]` (signed zeros excepted, which the exact model does not
distinguish). -/
noncomputable def atan2 (y x : ℝ) : ℝ :=
  if 0 < x then Real.arctan (y / x)
  else if x < 0 ∧ 0 ≤ y then Real.arctan (y / x) + π
  else if x < 0 then Real.arctan (y / x) - π
  else if 0 < y then π / 2
  else if y < 0 then -(π / 2)
  else 0

/-- Heading smoother (source: `smoothHeading`).  A `none` input models the
`null`/`undefined`/NaN guard, which returns
`lastValidLocation.current?.smoothedHeading || 0` and leaves the history
untouched.  Otherwise the input is normalised to `[0, 360)`, pushed onto the
bounded history (evicting the oldest sample beyond `cap`), and the circular
mean of the history is returned: `atan2` of the mean sine and mean cosine of
the samples taken in radians, converted back to degrees and normalised. -/
noncomputable def smoothHeading (newHeading : Option ℝ)
    (lastValid : Option LocationData) (hist : List ℝ) (cap : ℕ) :
    ℝ × List ℝ :=
  match newHeading with
  | none => (jsOrR (lastValid.map LocationData.smoothedHeading) 0, hist)
  | some h =>
      let normalizedHeading := normalize360 h
      let hist1 := hist ++ [normalizedHeading]
      let hist2 := if cap < hist1.length then hist1.tail else hist1
      let n : ℝ := hist2.length
      let sinSum := (hist2.map fun θ => Real.sin (θ * π / 180)).sum
      let cosSum := (hist2.map fun θ => Real.cos (θ * π / 180)).sum
      let meanRadians := atan2 (sinSum / n) (cosSum / n)
      let meanDegrees := jsMod (meanRadians * 180 / π + 360) 360
      (meanDegrees, hist2)

/-- Feeding a sequence of raw headings through the smoother one at a time,
starting from a given history; returns the last smoothed value and the final
history (the last-valid snapshot plays no role for non-null inputs). -/
noncomputable def runSmoother (cap : ℕ) (hist0 : List ℝ) (inputs : List ℝ) :
    ℝ × List ℝ :=
  inputs.foldl (fun p x => smoothHeading (some x) none p.2 cap) (0, hist0)

/-- Great-circle distance in metres between two coordinates (source:
`calculateDistance`): haversine formula with Earth radius 6 371 000 m. -/
noncomputable def calculateDistance (lat1 lng1 lat2 lng2 : ℚ) : ℝ :=
  let R : ℝ := 6371000
  let φ1 := (lat1 : ℝ) * π / 180
  let φ2 := (lat2 : ℝ) * π / 180
  let dPhi := ((lat2 : ℝ) - (lat1 : ℝ)) * π / 180
  let dLam := ((lng2 : ℝ) - (lng1 : ℝ)) * π / 180
  let a := Real.sin (dPhi / 2) * Real.sin (dPhi / 2) +
      Real.cos φ1 * Real.cos φ2 * Real.sin (dLam / 2) * Real.sin (dLam / 2)
  let c := 2 * atan2 (Real.sqrt a) (Real.sqrt (1 - a))
  R * c

/-- Increment of the consecutive-rejection counter, performed by every
rejection branch of `isValidLocation`
(source: `consecutiveRejectionsCount.current++`). -/
def bumpRejection (st : TrackingState) : TrackingState :=
  { st with consecutiveRejections := st.consecutiveRejections + 1 }

/-- Bounded push onto the position history: append, then drop the oldest
entry if the length exceeds `cap` (source: `locationHistory.current.push`
followed by `shift()` when the length exceeds 10). -/
def pushCap (hist : List PosEntry) (e : PosEntry) (cap : ℕ) : List PosEntry :=
  let h := hist ++ [e]
  if cap < h.length then h.tail else h

/-- State change on acceptance of a candidate: the consecutive-rejection
counter resets to 0 and the candidate is appended to the bounded (max 10)
position history (source: the tail of `isValidLocation`). -/
def acceptLocation (lat lng now : ℚ) (st : TrackingState) : TrackingState :=
  { st with consecutiveRejections := 0,
            locationHistory := pushCap st.locationHistory ⟨lat, lng, now⟩ 10 }

/-- Core teleportation condition (source: rule 6 of `isValidLocation`):
implied speed above 50 m/s over an elapsed time strictly between 1 and 60
seconds.  `d` is the distance in metres, `dt` the elapsed time in seconds. -/
def teleportViolation (d : ℝ) (dt : ℚ) : Prop :=
  50 * (dt : ℝ) < d ∧ 1 < dt ∧ dt < 60

/-- Teleportation rule as evaluated by the validator: only applies when a
last-accepted snapshot exists; the distance is the haversine distance to it
and the elapsed time is measured from its timestamp in seconds
(source: rule 6 of `isValidLocation`). -/
noncomputable def teleportRejects (lastValid : Option LocationData)
    (lat lng now : ℚ) : Prop :=
  match lastValid with
  | none => False
  | some last =>
      teleportViolation
        (calculateDistance last.latitude last.longitude lat lng)
        ((now - last.timestamp) / 1000)

/-- Round-coordinate jump rule (source: the `SPECIAL CHECK` nested in rule 6):
a jump of more than 10 000 m to a coordinate within 0.001 degree of an
integer. -/
noncomputable def roundJumpRejects (lastValid : Option LocationData)
    (lat lng : ℚ) : Prop :=
  match lastValid with
  | none => False
  | some last =>
      10000 < calculateDistance last.latitude last.longitude lat lng ∧
        (|lat - (round lat : ℚ)| < 1 / 1000 ∨ |lng - (round lng : ℚ)| < 1 / 1000)

/-- Stuck-GPS rule (source: rule 7, `PATTERN DETECTION`): the last three
history entries agree within 1e-6 degree and the candidate matches them too. -/
def stuckRejects (hist : List PosEntry) (lat lng : ℚ) : Prop :=
  3 ≤ hist.length ∧
    match (hist.drop (hist.length - 3)).head? with
    | none => False
    | some r0 =>
        (∀ e ∈ hist.drop (hist.length - 3),
          |e.lat - r0.lat| < 1 / 1000000 ∧ |e.lng - r0.lng| < 1 / 1000000) ∧
        |lat - r0.lat| < 1 / 1000000 ∧ |lng - r0.lng| < 1 / 1000000

/-- Suspicious-jump-while-moving rule (source: rule 9, `MOVEMENT DIRECTION
VALIDATION`): only while the last snapshot was moving, only when the
rejection counter is currently zero, and only for jumps above 1000 m. -/
noncomputable def movingJumpRejects (lastValid : Option LocationData)
    (lat lng : ℚ) (rejections : ℕ) : Prop :=
  match lastValid with
  | none => False
  | some last =>
      last.isMoving = true ∧
        1000 < calculateDistance last.latitude last.longitude lat lng ∧
        rejections = 0

/-- Reasons a candidate fix can be rejected, in the order the corresponding
rules appear in `isValidLocation`. -/
inductive RejectReason
  | zeroCoord
  | outOfRange
  | nearOrigin
  | badAccuracy
  | teleportation
  | roundJump
  | stuckPattern
  | overPrecise
  | movingJump
deriving DecidableEq

open Classical in
/-- Location validator (source: `isValidLocation`).  Returns the rejection
reason (`none` means accepted) together with the updated state: every
rejection increments the consecutive-rejection counter, acceptance resets it
to 0 and appends the candidate to the bounded position history.  Rules in
source order: (1) a latitude or longitude exactly 0; (2) non-finite or
missing coordinates — identically false in the exact model, where NaN,
Infinity, null and undefined do not inhabit `ℚ`, so the branch is omitted;
(3) out of Earth range; (4) Euclidean norm below 0.1 — the source compares
`Math.sqrt(lat*lat + lng*lng) < 0.1`, expressed here in the equivalent
squared form `lat^2 + lng^2 < 1/100`, exact for nonnegative radicands;
(5) accuracy present (truthy) and above 1000 m; (6) teleportation;
(6b) round-coordinate jump; (7) stuck GPS; (8) over-precise decimal literal,
where `sixZeros` models the platform predicate
`Number.prototype.toString().includes('.000000')`, a property of binary
floating-point formatting that the exact model takes as a parameter;
(9) suspicious jump while moving. -/
noncomputable def isValidLocation (sixZeros : ℚ → Bool) (lat lng : ℚ)
    (accuracy : Option ℚ) (now : ℚ) (st : TrackingState) :
    Option RejectReason × TrackingState :=
  if lat = 0 ∨ lng = 0 then (some RejectReason.zeroCoord, bumpRejection st)
  else if 90 < |lat| ∨ 180 < |lng| then
    (some RejectReason.outOfRange, bumpRejection st)
  else if lat ^ 2 + lng ^ 2 < 1 / 100 then
    (some RejectReason.nearOrigin, bumpRejection st)
  else if qTruthy accuracy ∧ 1000 < accuracy.getD 0 then
    (some RejectReason.badAccuracy, bumpRejection st)
  else if teleportRejects st.lastValidLocation lat lng now then
    (some RejectReason.teleportation, bumpRejection st)
  else if roundJumpRejects st.lastValidLocation lat lng then
    (some RejectReason.roundJump, bumpRejection st)
  else if stuckRejects st.locationHistory lat lng then
    (some RejectReason.stuckPattern, bumpRejection st)
  else if sixZeros lat || sixZeros lng then
    (some RejectReason.overPrecise, bumpRejection st)
  else if movingJumpRejects st.lastValidLocation lat lng
      st.consecutiveRejections then
    (some RejectReason.movingJump, bumpRejection st)
  else (none, acceptLocation lat lng now st)

open Classical in
/-- Handler of one pushed fix from the continuous `watchPositionAsync`
subscription (source: the callback of `startTracking`, lines 361-414).
On rejection, if a last-valid snapshot exists the published snapshot is
republished with only `signalStrength` (computed by the inline ternary
`counter > 5 ? 'lost' : 'poor'`) and `timestamp` (set to the processing
time) replaced.  On acceptance, an accuracy above `minAccuracy` only bumps
the counter and publishes nothing; otherwise a full new snapshot is built,
published, and recorded as last-valid. -/
noncomputable def handleWatchFix (sixZeros : ℚ → Bool)
    (opts : TrackingOptions) (fix : RawFix) (now : ℚ) (st : TrackingState) :
    TrackingState :=
  match isValidLocation sixZeros fix.latitude fix.longitude fix.accuracy
      now st with
  | (some _, st1) =>
      match st1.lastValidLocation with
      | some _ =>
          { st1 with
            location := st1.location.map fun prev =>
              { prev with
                signalStrength :=
                  if 5 < st1.consecutiveRejections then SignalStrength.lost
                  else SignalStrength.poor,
                timestamp := now } }
      | none => st1
  | (none, st1) =>
      if qTruthy fix.accuracy ∧ opts.minAccuracy < fix.accuracy.getD 0 then
        { st1 with consecutiveRejections := st1.consecutiveRejections + 1 }
      else
        let currentHeading :=
          jsOrR fix.heading (jsOrR (st1.lastValidLocation.map
            LocationData.heading) 0)
        let sm := smoothHeading (some currentHeading) st1.lastValidLocation
          st1.headingHistory opts.headingSamples
        let snap : LocationData :=
          { latitude := fix.latitude
            longitude := fix.longitude
            heading := currentHeading
            smoothedHeading := sm.1
            accuracy := jsUndef fix.accuracy
            speed := jsUndef fix.speed
            timestamp := fix.timestamp
            isMoving := decide ((1 / 2 : ℚ) < fix.speed.getD 0)
            isValid := true
            signalStrength :=
              getSignalStrength fix.accuracy st1.consecutiveRejections }
        { st1 with location := some snap, lastValidLocation := some snap,
                   headingHistory := sm.2, error := none }

/-- Entry bookkeeping of `startTracking` (source lines 280-283):
`setIsTracking(true)`, `setError(null)`, counter reset to 0, position history
cleared.  The heading history and the last-valid reference are not touched. -/
def startReset (st : TrackingState) : TrackingState :=
  { st with isTracking := true, error := none,
            consecutiveRejections := 0, locationHistory := [] }

/-- Initial-fix retry loop (source: the `while` loop of `startTracking`):
consume the provider's answers in order, validating each with
`isValidLocation`, until one is accepted or the attempts are exhausted.
Each provider answer is a raw fix paired with the wall-clock time `Date.now()`
at which it is processed. -/
noncomputable def acquireLoop (sixZeros : ℚ → Bool) :
    List (RawFix × ℚ) → TrackingState → Option (RawFix × ℚ) × TrackingState
  | [], st => (none, st)
  | (fix, now) :: rest, st =>
      match isValidLocation sixZeros fix.latitude fix.longitude fix.accuracy
          now st with
      | (none, st1) => (some (fix, now), st1)
      | (some _, st1) => acquireLoop sixZeros rest st1

/-- Error message surfaced when the initial-fix retry budget is exhausted
(source: the Spanish string set by `startTracking`). -/
def acquisitionFailedMsg : String :=
  "No se pudo obtener una ubicacion GPS valida despues de multiples intentos"

/-- Error message surfaced when location permission is denied
(source: the Spanish string set by `requestPermissions`). -/
def permissionDeniedMsg : String :=
  "Se requieren permisos de ubicacion para usar esta funcion"

/-- Body of `startTracking` once permission is granted (source lines 280-349):
reset the counter and the position history, run the initial-fix retry loop
(at most 10 attempts), and on success build and publish the initial snapshot
— heading `coords.heading || 0`, heading smoothed through the shared
smoother, `isMoving` when the speed exceeds 0.5 m/s, signal classified from
the accuracy and the (reset) counter — recording it as last-valid.  On
exhaustion, surface the acquisition error and stop tracking. -/
noncomputable def startAcquisition (sixZeros : ℚ → Bool)
    (opts : TrackingOptions) (inputs : List (RawFix × ℚ))
    (st : TrackingState) : TrackingState :=
  match acquireLoop sixZeros (inputs.take 10) (startReset st) with
  | (none, st2) =>
      { st2 with error := some acquisitionFailedMsg, isTracking := false }
  | (some (fix, _), st2) =>
      let initialHeading := jsOrR fix.heading 0
      let sm := smoothHeading (some initialHeading) st2.lastValidLocation
        st2.headingHistory opts.headingSamples
      let snap : LocationData :=
        { latitude := fix.latitude
          longitude := fix.longitude
          heading := initialHeading
          smoothedHeading := sm.1
          accuracy := jsUndef fix.accuracy
          speed := jsUndef fix.speed
          timestamp := fix.timestamp
          isMoving := decide ((1 / 2 : ℚ) < fix.speed.getD 0)
          isValid := true
          signalStrength :=
            getSignalStrength fix.accuracy st2.consecutiveRejections }
      { st2 with location := some snap, lastValidLocation := some snap,
                 headingHistory := sm.2, error := none }

/-- The `startTracking` command (source lines 273-447).  If permission is not
yet granted it is requested first — `grant` is the answer of the external
permission subsystem — and a denial aborts with the permission error without
entering acquisition. -/
noncomputable def startTracking (sixZeros : ℚ → Bool)
    (opts : TrackingOptions) (grant : Bool) (inputs : List (RawFix × ℚ))
    (st : TrackingState) : TrackingState :=
  match st.hasPermission with
  | some true => startAcquisition sixZeros opts inputs st
  | _ =>
      if grant then
        startAcquisition sixZeros opts inputs
          { st with hasPermission := some true, error := none }
      else
        { st with hasPermission := some false,
                  error := some permissionDeniedMsg }

/-- The `stopTracking` command (source lines 450-464): removes the two
provider subscriptions (external resources, not part of the state) and
clears the tracking flag; every other cell — including the published
snapshot, both histories and the last-valid reference — is untouched. -/
def stopTracking (st : TrackingState) : TrackingState :=
  { st with isTracking := false }

/-- The `resetTracking` command (source lines 472-482): stop, then clear the
published snapshot, the error, both history buffers, the last-valid
reference and the rejection counter. -/
def resetTracking (st : TrackingState) : TrackingState :=
  { stopTracking st with
    location := none, error := none, headingHistory := [],
    lastValidLocation := none, locationHistory := [],
    consecutiveRejections := 0 }

set_option maxHeartbeats 1000000 in
lemma isValidLocation_cases (sixZeros : ℚ → Bool) (lat lng : ℚ)
    (accuracy : Option ℚ) (now : ℚ) (st : TrackingState) :
    ((isValidLocation sixZeros lat lng accuracy now st).1 = none ∧
      (isValidLocation sixZeros lat lng accuracy now st).2 =
        acceptLocation lat lng now st) ∨
    ((isValidLocation sixZeros lat lng accuracy now st).1.isSome = true ∧
      (isValidLocation sixZeros lat lng accuracy now st).2 =
        bumpRejection st) := by
  unfold isValidLocation
  split_ifs <;> simp

lemma isValidLocation_rejected_state (sixZeros : ℚ → Bool) (lat lng : ℚ)
    (accuracy : Option ℚ) (now : ℚ) (st : TrackingState)
    (h : (isValidLocation sixZeros lat lng accuracy now st).1.isSome = true) :
    (isValidLocation sixZeros lat lng accuracy now st).2 = bumpRejection st := by
  rcases isValidLocation_cases sixZeros lat lng accuracy now st with ⟨h1, _⟩ | ⟨_, h2⟩
  · rw [h1] at h
    simp at h
  · exact h2

lemma isValidLocation_accepted_state (sixZeros : ℚ → Bool) (lat lng : ℚ)
    (accuracy : Option ℚ) (now : ℚ) (st : TrackingState)
    (h : (isValidLocation sixZeros lat lng accuracy now st).1 = none) :
    (isValidLocation sixZeros lat lng accuracy now st).2 =
      acceptLocation lat lng now st := by
  rcases isValidLocation_cases sixZeros lat lng accuracy now st with ⟨_, h2⟩ | ⟨h1, _⟩
  · exact h2
  · rw [h] at h1
    simp at h1

/-- C1: while tracking, processing a pushed raw fix that the validator
rejects leaves the published snapshot's latitude, longitude, heading,
smoothedHeading, speed (and accuracy, isMoving, isValid) unchanged — only
`signalStrength` and `timestamp` may change — leaves the last-valid
reference, the heading history and the position history unchanged, and
increases the consecutive-rejection counter by exactly 1. -/
theorem rejectedFix_preserves_snapshot (sixZeros : ℚ → Bool)
    (opts : TrackingOptions) (fix : RawFix) (now : ℚ) (st : TrackingState)
    (hrej : (isValidLocation sixZeros fix.latitude fix.longitude fix.accuracy
      now st).1.isSome = true) :
    (handleWatchFix sixZeros opts fix now st).consecutiveRejections =
        st.consecutiveRejections + 1 ∧
    (handleWatchFix sixZeros opts fix now st).location.map
        LocationData.latitude = st.location.map LocationData.latitude ∧
    (handleWatchFix sixZeros opts fix now st).location.map
        LocationData.longitude = st.location.map LocationData.longitude ∧
    (handleWatchFix sixZeros opts fix now st).location.map
        LocationData.heading = st.location.map LocationData.heading ∧
    (handleWatchFix sixZeros opts fix now st).location.map
        LocationData.smoothedHeading =
      st.location.map LocationData.smoothedHeading ∧
    (handleWatchFix sixZeros opts fix now st).location.map
        LocationData.speed = st.location.map LocationData.speed ∧
    (handleWatchFix sixZeros opts fix now st).location.map
        LocationData.accuracy = st.location.map LocationData.accuracy ∧
    (handleWatchFix sixZeros opts fix now st).location.map
        LocationData.isMoving = st.location.map LocationData.isMoving ∧
    (handleWatchFix sixZeros opts fix now st).location.map
        LocationData.isValid = st.location.map LocationData.isValid ∧
    (handleWatchFix sixZeros opts fix now st).lastValidLocation =
        st.lastValidLocation ∧
    (handleWatchFix sixZeros opts fix now st).headingHistory =
        st.headingHistory ∧
    (handleWatchFix sixZeros opts fix now st).locationHistory =
        st.locationHistory := by
  obtain ⟨r, hr⟩ := Option.isSome_iff_exists.mp hrej
  have hb := isValidLocation_rejected_state sixZeros fix.latitude
    fix.longitude fix.accuracy now st hrej
  have heq : isValidLocation sixZeros fix.latitude fix.longitude fix.accuracy
      now st = (some r, bumpRejection st) := by
    rw [← hr, ← hb]
  simp only [handleWatchFix, heq]
  cases hlv : st.lastValidLocation with
  | none => simp [bumpRejection, hlv]
  | some last =>
      cases hloc : st.location with
      | none => simp [bumpRejection, hlv, hloc]
      | some snap => simp [bumpRejection, hlv, hloc]

/-- Canonical model of the `toString().includes('.000000')` platform
predicate for the concrete scenarios: none of the concrete coordinates used
below (integers or short decimal fractions such as 39.9042) prints with six
consecutive fractional zeros, so the predicate is constantly false on them. -/
def szF : ℚ → Bool := fun _ => false

/-- Last-accepted snapshot of the end-to-end rejection scenario: the session
is tracking at (39.9042, 116.4074) with accuracy 8 m. -/
def snapW : LocationData :=
  { latitude := 39.9042, longitude := 116.4074, heading := 0,
    smoothedHeading := 0, accuracy := some 8, speed := none, timestamp := 0,
    isMoving := false, isValid := true,
    signalStrength := SignalStrength.good }

/-- Session state of the end-to-end rejection scenario: `Tracking`, with
`snapW` both published and recorded as last-valid, and no rejections yet. -/
def stW : TrackingState :=
  { location := some snapW, hasPermission := some true, isTracking := true,
    error := none, headingHistory := [0], lastValidLocation := some snapW,
    locationHistory := [⟨39.9042, 116.4074, 0⟩], consecutiveRejections := 0 }

/-- The malformed pushed fix of the rejection scenarios: the (0, 0) sentinel
coordinate. -/
def fixZero : RawFix :=
  { latitude := 0, longitude := 0, accuracy := none, heading := none,
    speed := none, timestamp := 1000 }

lemma fixZero_rejected :
    (isValidLocation szF fixZero.latitude fixZero.longitude fixZero.accuracy
      5000 stW).1.isSome = true := by
  simp [isValidLocation, fixZero]

/-- Witness for C1: the `Tracking` session at (39.9042, 116.4074) that
receives the pushed fix (0, 0) keeps its snapshot's coordinates and all
position/heading fields, and its rejection counter goes from 0 to 1. -/
theorem rejectedFix_preserves_snapshot_witness :
    (isValidLocation szF fixZero.latitude fixZero.longitude fixZero.accuracy
        5000 stW).1.isSome = true ∧
    stW.location.map LocationData.latitude = some 39.9042 ∧
    stW.location.map LocationData.longitude = some 116.4074 ∧
    ((handleWatchFix szF optsD fixZero 5000 stW).consecutiveRejections =
        stW.consecutiveRejections + 1 ∧
      (handleWatchFix szF optsD fixZero 5000 stW).location.map
          LocationData.latitude = stW.location.map LocationData.latitude ∧
      (handleWatchFix szF optsD fixZero 5000 stW).location.map
          LocationData.longitude = stW.location.map LocationData.longitude ∧
      (handleWatchFix szF optsD fixZero 5000 stW).location.map
          LocationData.heading = stW.location.map LocationData.heading ∧
      (handleWatchFix szF optsD fixZero 5000 stW).location.map
          LocationData.smoothedHeading =
        stW.location.map LocationData.smoothedHeading ∧
      (handleWatchFix szF optsD fixZero 5000 stW).location.map
          LocationData.speed = stW.location.map LocationData.speed ∧
      (handleWatchFix szF optsD fixZero 5000 stW).location.map
          LocationData.accuracy = stW.location.map LocationData.accuracy ∧
      (handleWatchFix szF optsD fixZero 5000 stW).location.map
          LocationData.isMoving = stW.location.map LocationData.isMoving ∧
      (handleWatchFix szF optsD fixZero 5000 stW).location.map
          LocationData.isValid = stW.location.map LocationData.isValid ∧
      (handleWatchFix szF optsD fixZero 5000 stW).lastValidLocation =
          stW.lastValidLocation ∧
      (handleWatchFix szF optsD fixZero 5000 stW).headingHistory =
          stW.headingHistory ∧
      (handleWatchFix szF optsD fixZero 5000 stW).locationHistory =
          stW.locationHistory) :=
  ⟨fixZero_rejected, rfl, rfl,
    rejectedFix_preserves_snapshot szF optsD fixZero 5000 stW fixZero_rejected⟩

/-- Reference form of the classifier policy as amended: a long rejection
streak (> 10) gives `lost` and a medium one (> 5) gives `poor` regardless of
accuracy; an *absent or zero* accuracy gives `lost`; otherwise the accuracy
bands ≤ 5 / ≤ 15 / ≤ 50 give `excellent` / `good` / `poor`, and anything
coarser gives `lost`. -/
def classifySpec (accuracy : Option ℚ) (consecutiveRejections : ℕ) :
    SignalStrength :=
  if 10 < consecutiveRejections then SignalStrength.lost
  else if 5 < consecutiveRejections then SignalStrength.poor
  else
    match accuracy with
    | none => SignalStrength.lost
    | some a =>
        if a = 0 then SignalStrength.lost
        else if a ≤ 5 then SignalStrength.excellent
        else if a ≤ 15 then SignalStrength.good
        else if a ≤ 50 then SignalStrength.poor
        else SignalStrength.lost

/-- Counterexample to C3 as stated: a *present* accuracy of 0 with zero
rejections is classified `lost`, not `excellent` — JavaScript's
`if (!accuracy)` treats the number 0 as absent. -/
theorem getSignalStrength_zero_accuracy_counterexample :
    getSignalStrength (some 0) 0 = SignalStrength.lost ∧
      getSignalStrength (some 0) 0 ≠ SignalStrength.excellent := by
  constructor <;> decide

/-- C3 (amended): the classifier implements the ordered policy with the
zero-accuracy correction — streak > 10 gives `lost`, streak > 5 gives
`poor`, an absent *or zero* accuracy gives `lost`, and otherwise the bands
≤ 5 / ≤ 15 / ≤ 50 give `excellent` / `good` / `poor` with `lost` beyond. -/
theorem getSignalStrength_eq_classifySpec (accuracy : Option ℚ)
    (consecutiveRejections : ℕ) :
    getSignalStrength accuracy consecutiveRejections =
      classifySpec accuracy consecutiveRejections := by
  cases accuracy with
  | none => simp [getSignalStrength, classifySpec, qTruthy]
  | some a =>
      by_cases h0 : a = 0 <;>
        simp [getSignalStrength, classifySpec, qTruthy, h0]

/-- C4: any candidate with a zero latitude or longitude, or with Euclidean
norm below 0.1 degree of the origin (`lat^2 + lng^2 < 1/100`, the squared
form of `sqrt(lat^2+lng^2) < 0.1`), is rejected by the validator, whatever
the accuracy, the history and the last-accepted state — also when both
coordinates are individually nonzero. -/
theorem zeroOrNearOrigin_rejected (sixZeros : ℚ → Bool) (lat lng : ℚ)
    (accuracy : Option ℚ) (now : ℚ) (st : TrackingState)
    (h : lat = 0 ∨ lng = 0 ∨ lat ^ 2 + lng ^ 2 < 1 / 100) :
    (isValidLocation sixZeros lat lng accuracy now st).1.isSome = true := by
  unfold isValidLocation
  split_ifs with h1 h2 h3 h4 h5 h6 h7 h8 h9 <;> simp
  tauto

lemma nearOrigin_example : (0.05 : ℚ) ^ 2 + (0.05 : ℚ) ^ 2 < 1 / 100 := by
  norm_num

/-- Witness for C4: the sentinel (0, 0) is rejected, and so is the
near-origin candidate (0.05, 0.05), whose coordinates are both nonzero. -/
theorem zeroOrNearOrigin_rejected_witness :
    (((0 : ℚ) = 0 ∨ (0 : ℚ) = 0 ∨ (0 : ℚ) ^ 2 + (0 : ℚ) ^ 2 < 1 / 100) ∧
      (isValidLocation szF 0 0 none 0 stW).1.isSome = true) ∧
    (((0.05 : ℚ) = 0 ∨ (0.05 : ℚ) = 0 ∨
        (0.05 : ℚ) ^ 2 + (0.05 : ℚ) ^ 2 < 1 / 100) ∧
      (isValidLocation szF 0.05 0.05 (some 5) 0 stW).1.isSome = true) :=
  ⟨⟨Or.inl rfl, zeroOrNearOrigin_rejected szF 0 0 none 0 stW (Or.inl rfl)⟩,
    ⟨Or.inr (Or.inr nearOrigin_example),
      zeroOrNearOrigin_rejected szF 0.05 0.05 (some 5) 0 stW
        (Or.inr (Or.inr nearOrigin_example))⟩⟩

/-- C5: when a last-accepted fix exists and the candidate survives the
checks that precede the teleportation rule (nonzero, in range, away from the
origin, acceptable accuracy), the validator rejects it *with the
teleportation reason* exactly when the haversine distance `d` to the
last-accepted fix and the elapsed time `dt` (seconds) satisfy
`1 < dt < 60` and `d > 50 * dt`; moreover a candidate 10 000 m away violates
the rule at `dt = 5` and does not violate it at `dt = 400`. -/
theorem teleportation_rule_characterisation (sixZeros : ℚ → Bool)
    (lat lng : ℚ) (accuracy : Option ℚ) (now : ℚ) (st : TrackingState)
    (last : LocationData)
    (hlv : st.lastValidLocation = some last)
    (h1 : ¬(lat = 0 ∨ lng = 0))
    (h2 : ¬(90 < |lat| ∨ 180 < |lng|))
    (h3 : ¬(lat ^ 2 + lng ^ 2 < 1 / 100))
    (h4 : ¬(qTruthy accuracy ∧ 1000 < accuracy.getD 0)) :
    ((isValidLocation sixZeros lat lng accuracy now st).1 =
        some RejectReason.teleportation ↔
      teleportViolation
        (calculateDistance last.latitude last.longitude lat lng)
        ((now - last.timestamp) / 1000)) ∧
    teleportViolation 10000 5 ∧ ¬ teleportViolation 10000 400 := by
  refine ⟨?_, ?_, ?_⟩
  · have hiff : teleportRejects st.lastValidLocation lat lng now ↔
        teleportViolation
          (calculateDistance last.latitude last.longitude lat lng)
          ((now - last.timestamp) / 1000) := by
      rw [hlv]
      simp [teleportRejects]
    unfold isValidLocation
    rw [if_neg h1, if_neg h2, if_neg h3, if_neg h4]
    by_cases htel : teleportRejects st.lastValidLocation lat lng now
    · rw [if_pos htel]
      simp [hiff.mp htel]
    · rw [if_neg htel, ← hiff]
      split_ifs <;> simp [htel]
  · refine ⟨?_, by norm_num, by norm_num⟩
    show (50 : ℝ) * ((5 : ℚ) : ℝ) < 10000
    norm_num
  · rintro ⟨-, -, hlt⟩
    norm_num at hlt

/-- Last-accepted snapshot of the teleportation scenario: the session last
accepted (40, -74) at time 0. -/
def lastT : LocationData :=
  { latitude := 40, longitude := -74, heading := 0, smoothedHeading := 0,
    accuracy := some 10, speed := none, timestamp := 0, isMoving := false,
    isValid := true, signalStrength := SignalStrength.good }

/-- Session state of the teleportation scenario. -/
def stT : TrackingState :=
  { location := some lastT, hasPermission := some true, isTracking := true,
    error := none, headingHistory := [], lastValidLocation := some lastT,
    locationHistory := [], consecutiveRejections := 0 }

lemma candT_nonzero : ¬((40.1 : ℚ) = 0 ∨ (-74.05 : ℚ) = 0) := by norm_num

lemma candT_inRange :
    ¬((90 : ℚ) < |(40.1 : ℚ)| ∨ (180 : ℚ) < |(-74.05 : ℚ)|) := by
  rw [abs_of_pos (by norm_num : (0 : ℚ) < 40.1),
    abs_of_neg (by norm_num : (-74.05 : ℚ) < 0)]
  norm_num

lemma candT_farFromOrigin :
    ¬((40.1 : ℚ) ^ 2 + (-74.05 : ℚ) ^ 2 < 1 / 100) := by norm_num

lemma candT_accuracyOk : ¬(qTruthy none ∧ 1000 < (none : Option ℚ).getD 0) := by
  simp [qTruthy]

/-- Witness for C5: in the concrete session last-accepted at (40, -74), for
the candidate (40.1, -74.05) processed at `Date.now() = 5000`, rejection
with the teleportation reason is equivalent to the teleportation condition at
the haversine distance and `dt = 5`, and the 10 000 m / 5 s vs 400 s
instances hold. -/
theorem teleportation_rule_characterisation_witness :
    (stT.lastValidLocation = some lastT ∧
      ¬((40.1 : ℚ) = 0 ∨ (-74.05 : ℚ) = 0) ∧
      ¬((90 : ℚ) < |(40.1 : ℚ)| ∨ (180 : ℚ) < |(-74.05 : ℚ)|) ∧
      ¬((40.1 : ℚ) ^ 2 + (-74.05 : ℚ) ^ 2 < 1 / 100) ∧
      ¬(qTruthy none ∧ 1000 < (none : Option ℚ).getD 0)) ∧
    (((isValidLocation szF 40.1 (-74.05) none 5000 stT).1 =
        some RejectReason.teleportation ↔
      teleportViolation
        (calculateDistance lastT.latitude lastT.longitude 40.1 (-74.05))
        (((5000 : ℚ) - lastT.timestamp) / 1000)) ∧
    teleportViolation 10000 5 ∧ ¬ teleportViolation 10000 400) :=
  ⟨⟨rfl, candT_nonzero, candT_inRange, candT_farFromOrigin, candT_accuracyOk⟩,
    teleportation_rule_characterisation szF 40.1 (-74.05) none 5000 stT lastT
      rfl candT_nonzero candT_inRange candT_farFromOrigin candT_accuracyOk⟩

/-- C8: a `null`/`NaN` raw heading (modelled by `none`) makes the smoother
return the previous smoothed value unchanged — the fallback 0 only appears
when no previous snapshot exists — and push nothing onto the heading
history, for every history and window size. -/
theorem smoothHeading_null_input (prev : LocationData) (hist : List ℝ)
    (cap : ℕ) :
    (smoothHeading none (some prev) hist cap).1 = prev.smoothedHeading ∧
    (smoothHeading none (some prev) hist cap).2 = hist ∧
    (smoothHeading none none hist cap).1 = 0 ∧
    (smoothHeading none none hist cap).2 = hist := by
  refine ⟨?_, rfl, rfl, rfl⟩
  show jsOrR (some prev.smoothedHeading) 0 = prev.smoothedHeading
  unfold jsOrR
  by_cases h : prev.smoothedHeading = 0 <;> simp [h]

lemma jsMod_bounds (a b : ℝ) (hb : 0 < b) : -b < jsMod a b ∧ jsMod a b < b := by
  unfold jsMod jsTrunc
  by_cases h : 0 ≤ a / b
  · rw [if_pos h]
    have hf1 : (⌊a / b⌋ : ℝ) ≤ a / b := Int.floor_le _
    have hf2 : a / b - 1 < ⌊a / b⌋ := Int.sub_one_lt_floor _
    have hab : b * (a / b) = a := by field_simp
    constructor <;> nlinarith
  · rw [if_neg h]
    have hf1 : (a / b) ≤ ⌈a / b⌉ := Int.le_ceil _
    have hf2 : (⌈a / b⌉ : ℝ) < a / b + 1 := Int.ceil_lt_add_one _
    have hab : b * (a / b) = a := by field_simp
    constructor <;> nlinarith

lemma jsMod_nonneg (a b : ℝ) (hb : 0 < b) (ha : 0 ≤ a) : 0 ≤ jsMod a b := by
  unfold jsMod jsTrunc
  have h : 0 ≤ a / b := div_nonneg ha hb.le
  rw [if_pos h]
  have hf1 : (⌊a / b⌋ : ℝ) ≤ a / b := Int.floor_le _
  have hab : b * (a / b) = a := by field_simp
  nlinarith

lemma jsMod_eq_sub (a b : ℝ) (k : ℤ) (hb : 0 < b) (hk : 0 ≤ k)
    (hge : (k : ℝ) * b ≤ a) (hlt : a < ((k : ℝ) + 1) * b) :
    jsMod a b = a - b * k := by
  have hk0 : (0 : ℝ) ≤ (k : ℝ) * b :=
    mul_nonneg (by exact_mod_cast hk) hb.le
  have hdiv0 : 0 ≤ a / b := div_nonneg (le_trans hk0 hge) hb.le
  have hfl : ⌊a / b⌋ = k := by
    rw [Int.floor_eq_iff]
    constructor
    · rw [le_div_iff₀ hb]
      exact hge
    · rw [div_lt_iff₀ hb]
      linarith
  unfold jsMod jsTrunc
  rw [if_pos hdiv0, hfl]

lemma normalize360_range (x : ℝ) :
    0 ≤ normalize360 x ∧ normalize360 x < 360 := by
  unfold normalize360
  have h1 := jsMod_bounds x 360 (by norm_num)
  have harg : 0 ≤ jsMod x 360 + 360 := by linarith [h1.1]
  exact ⟨jsMod_nonneg _ _ (by norm_num) harg,
    (jsMod_bounds _ 360 (by norm_num)).2⟩

lemma normalize360_eq_self (x : ℝ) (h0 : 0 ≤ x) (h1 : x < 360) :
    normalize360 x = x := by
  unfold normalize360
  have e1 : jsMod x 360 = x - 360 * ((0 : ℤ) : ℝ) :=
    jsMod_eq_sub x 360 0 (by norm_num) le_rfl (by norm_num; exact h0)
      (by norm_num; exact h1)
  have e2 : jsMod (x + 360) 360 = (x + 360) - 360 * ((1 : ℤ) : ℝ) :=
    jsMod_eq_sub (x + 360) 360 1 (by norm_num) (by norm_num)
      (by norm_num; exact h0) (by norm_num; linarith)
  rw [e1]
  norm_num
  rw [e2]
  norm_num

lemma smoothHeading_push (x : ℝ) (lv : Option LocationData) (hist : List ℝ)
    (cap : ℕ) (h : hist.length < cap) :
    (smoothHeading (some x) lv hist cap).2 = hist ++ [normalize360 x] := by
  simp only [smoothHeading, List.length_append, List.length_singleton]
  rw [if_neg (by omega)]

lemma smoothHeading_evict (x : ℝ) (lv : Option LocationData) (hist : List ℝ)
    (cap : ℕ) (hlen : hist.length = cap) (hpos : 0 < cap) :
    (smoothHeading (some x) lv hist cap).2 = hist.tail ++ [normalize360 x] ∧
    (smoothHeading (some x) lv hist cap).2.length = cap := by
  cases hist with
  | nil =>
      simp at hlen
      omega
  | cons a t =>
      simp only [smoothHeading, List.length_append, List.length_singleton]
      rw [if_pos (by simp at hlen ⊢; omega)]
      constructor
      · simp
      · simp at hlen ⊢
        omega

lemma cos_deg_pos (x : ℝ) (h0 : 0 ≤ x) (h1 : x < 90) :
    0 < Real.cos (x * π / 180) := by
  apply Real.cos_pos_of_mem_Ioo
  constructor
  · have := Real.pi_pos
    nlinarith
  · have := Real.pi_pos
    nlinarith

lemma atan2_zero_pos (x : ℝ) (h : 0 < x) : atan2 0 x = 0 := by
  unfold atan2
  rw [if_pos h]
  simp [Real.arctan_zero]

lemma smooth_symmetric_window :
    (smoothHeading (some 10) none [350, 355, 5] 5).1 = 0 := by
  have n10 : normalize360 10 = 10 :=
    normalize360_eq_self 10 (by norm_num) (by norm_num)
  simp only [smoothHeading, n10, List.cons_append, List.nil_append,
    List.length_cons, List.length_nil]
  norm_num
  have e1 : (350 : ℝ) * π / 180 = 2 * π - 10 * π / 180 := by ring
  have e2 : (355 : ℝ) * π / 180 = 2 * π - 5 * π / 180 := by ring
  have hsin : Real.sin (350 * π / 180) + (Real.sin (355 * π / 180) +
      (Real.sin (5 * π / 180) + Real.sin (10 * π / 180))) = 0 := by
    rw [e1, e2, Real.sin_sub, Real.sin_sub, Real.sin_two_pi, Real.cos_two_pi]
    ring
  have hcos : Real.cos (350 * π / 180) + (Real.cos (355 * π / 180) +
      (Real.cos (5 * π / 180) + Real.cos (10 * π / 180))) =
      2 * Real.cos (5 * π / 180) + 2 * Real.cos (10 * π / 180) := by
    rw [e1, e2, Real.cos_sub, Real.cos_sub, Real.sin_two_pi, Real.cos_two_pi]
    ring
  rw [hsin, hcos]
  have hcpos : 0 < (2 * Real.cos (5 * π / 180) +
      2 * Real.cos (10 * π / 180)) / 4 := by
    have c5 := cos_deg_pos 5 (by norm_num) (by norm_num)
    have c10 := cos_deg_pos 10 (by norm_num) (by norm_num)
    positivity
  rw [zero_div, atan2_zero_pos _ hcpos, zero_mul, zero_div, zero_add]
  have : jsMod 360 360 = 360 - 360 * ((1 : ℤ) : ℝ) :=
    jsMod_eq_sub 360 360 1 (by norm_num) (by norm_num) (by norm_num)
      (by norm_num)
  rw [this]
  norm_num

lemma runSmoother_concrete :
    runSmoother 5 [] [350, 355, 5, 10] = (0, [350, 355, 5, 10]) := by
  have n350 : normalize360 350 = 350 :=
    normalize360_eq_self 350 (by norm_num) (by norm_num)
  have n355 : normalize360 355 = 355 :=
    normalize360_eq_self 355 (by norm_num) (by norm_num)
  have n5 : normalize360 5 = 5 :=
    normalize360_eq_self 5 (by norm_num) (by norm_num)
  have n10 : normalize360 10 = 10 :=
    normalize360_eq_self 10 (by norm_num) (by norm_num)
  have s1 : (smoothHeading (some 350) none ([] : List ℝ) 5).2 = [350] := by
    rw [smoothHeading_push 350 none [] 5 (by simp), n350]
    simp
  have s2 : (smoothHeading (some 355) none [(350 : ℝ)] 5).2 = [350, 355] := by
    rw [smoothHeading_push 355 none [350] 5 (by simp), n355]
    simp
  have s3 : (smoothHeading (some 5) none [(350 : ℝ), 355] 5).2 =
      [350, 355, 5] := by
    rw [smoothHeading_push 5 none [350, 355] 5 (by simp), n5]
    simp
  have s4 : (smoothHeading (some 10) none [(350 : ℝ), 355, 5] 5).2 =
      [350, 355, 5, 10] := by
    rw [smoothHeading_push 10 none [350, 355, 5] 5 (by simp), n10]
    simp
  unfold runSmoother
  simp only [List.foldl_cons, List.foldl_nil]
  rw [s1, s2, s3]
  rw [Prod.ext_iff]
  exact ⟨smooth_symmetric_window, s4⟩

/-- C6: the smoother normalises its input to `[0, 360)` and appends it to
the bounded history — without eviction while the window is not full, with
eviction of the oldest sample once it is, the length never exceeding the
cap — and its circular mean sends the wrap-around sequence
[350, 355, 5, 10] (window 5, starting empty) to exactly 0 degrees, at full
distance 180 from the arithmetic-mean artefact 180. -/
theorem smoothHeading_bounded_circular (x : ℝ) (lv : Option LocationData)
    (hist hist2 : List ℝ) (cap : ℕ)
    (hlen : hist.length < cap) (hlen2 : hist2.length = cap) (hpos : 0 < cap) :
    (0 ≤ normalize360 x ∧ normalize360 x < 360) ∧
    (smoothHeading (some x) lv hist cap).2 = hist ++ [normalize360 x] ∧
    (smoothHeading (some x) lv hist2 cap).2 = hist2.tail ++ [normalize360 x] ∧
    (smoothHeading (some x) lv hist2 cap).2.length = cap ∧
    runSmoother 5 [] [350, 355, 5, 10] = (0, [350, 355, 5, 10]) ∧
    |(runSmoother 5 [] [350, 355, 5, 10]).1 - 180| = 180 := by
  have hev := smoothHeading_evict x lv hist2 cap hlen2 hpos
  refine ⟨normalize360_range x, smoothHeading_push x lv hist cap hlen,
    hev.1, hev.2, runSmoother_concrete, ?_⟩
  rw [runSmoother_concrete]
  norm_num [abs_of_nonpos]

/-- Witness for C6 at the window size 5 of the scenario: a non-full history
of one sample and a full history of five samples. -/
theorem smoothHeading_bounded_circular_witness :
    (([(0 : ℝ)] : List ℝ).length < 5 ∧
      ([(0 : ℝ), 90, 180, 270, 300] : List ℝ).length = 5 ∧ 0 < 5) ∧
    ((0 ≤ normalize360 42 ∧ normalize360 42 < 360) ∧
      (smoothHeading (some 42) none [(0 : ℝ)] 5).2 =
        [(0 : ℝ)] ++ [normalize360 42] ∧
      (smoothHeading (some 42) none [(0 : ℝ), 90, 180, 270, 300] 5).2 =
        ([(0 : ℝ), 90, 180, 270, 300] : List ℝ).tail ++ [normalize360 42] ∧
      (smoothHeading (some 42) none [(0 : ℝ), 90, 180, 270, 300] 5).2.length =
        5 ∧
      runSmoother 5 [] [350, 355, 5, 10] = (0, [350, 355, 5, 10]) ∧
      |(runSmoother 5 [] [350, 355, 5, 10]).1 - 180| = 180) :=
  ⟨⟨by decide, by decide, by decide⟩,
    smoothHeading_bounded_circular 42 none [(0 : ℝ)]
      [(0 : ℝ), 90, 180, 270, 300] 5 (by decide) (by decide) (by decide)⟩

/-- C7 (amended): when a pushed fix is rejected during tracking, the
republished snapshot is the previous one with *only* `signalStrength` and
`timestamp` replaced, and the new `signalStrength` comes from the inline
rule of the rejection branch — `lost` when the freshly incremented counter
exceeds 5, `poor` otherwise — not from the full classifier. -/
theorem rejectedFix_signal_ternary (sixZeros : ℚ → Bool)
    (opts : TrackingOptions) (fix : RawFix) (now : ℚ) (st : TrackingState)
    (last : LocationData)
    (hrej : (isValidLocation sixZeros fix.latitude fix.longitude fix.accuracy
      now st).1.isSome = true)
    (hlv : st.lastValidLocation = some last) :
    (handleWatchFix sixZeros opts fix now st).location =
      st.location.map fun prev =>
        { prev with
          signalStrength :=
            if 5 < st.consecutiveRejections + 1 then SignalStrength.lost
            else SignalStrength.poor,
          timestamp := now } := by
  obtain ⟨r, hr⟩ := Option.isSome_iff_exists.mp hrej
  have hb := isValidLocation_rejected_state sixZeros fix.latitude
    fix.longitude fix.accuracy now st hrej
  have heq : isValidLocation sixZeros fix.latitude fix.longitude fix.accuracy
      now st = (some r, bumpRejection st) := by
    rw [← hr, ← hb]
  simp only [handleWatchFix, heq, bumpRejection, hlv]

lemma fixZero_rejected_pair :
    ∃ r, isValidLocation szF fixZero.latitude fixZero.longitude
      fixZero.accuracy 5000 stW = (some r, bumpRejection stW) := by
  obtain ⟨r, hr⟩ := Option.isSome_iff_exists.mp fixZero_rejected
  exact ⟨r, by
    rw [← hr, ← isValidLocation_rejected_state szF fixZero.latitude
      fixZero.longitude fixZero.accuracy 5000 stW fixZero_rejected]⟩

/-- Counterexample to C7 as stated: in the tracking session whose previous
snapshot has accuracy 8 m and whose counter was 0, the rejected fix (0, 0)
republishes `signalStrength = poor` (the inline ternary at the new counter
1), while the §4.3 classifier at the previous accuracy and the new counter
returns `good`. -/
theorem rejectedFix_signal_counterexample :
    (handleWatchFix szF optsD fixZero 5000 stW).consecutiveRejections = 1 ∧
    (handleWatchFix szF optsD fixZero 5000 stW).location.map
        LocationData.signalStrength = some SignalStrength.poor ∧
    stW.location.map LocationData.accuracy = some (some 8) ∧
    getSignalStrength (some 8) 1 = SignalStrength.good ∧
    (handleWatchFix szF optsD fixZero 5000 stW).location.map
        LocationData.signalStrength ≠
      some (getSignalStrength (some 8)
        (handleWatchFix szF optsD fixZero 5000 stW).consecutiveRejections) := by
  obtain ⟨r, heq⟩ := fixZero_rejected_pair
  have hred : (handleWatchFix szF optsD fixZero 5000 stW).location.map
        LocationData.signalStrength = some SignalStrength.poor ∧
      (handleWatchFix szF optsD fixZero 5000 stW).consecutiveRejections =
        1 := by
    simp only [handleWatchFix, heq, bumpRejection]
    simp [stW, snapW]
  refine ⟨hred.2, hred.1, rfl, by decide, ?_⟩
  rw [hred.1, hred.2]
  decide

/-- Witness for the amended C7 at the concrete rejection scenario. -/
theorem rejectedFix_signal_ternary_witness :
    ((isValidLocation szF fixZero.latitude fixZero.longitude fixZero.accuracy
        5000 stW).1.isSome = true ∧
      stW.lastValidLocation = some snapW) ∧
    (handleWatchFix szF optsD fixZero 5000 stW).location =
      stW.location.map fun prev =>
        { prev with
          signalStrength :=
            if 5 < stW.consecutiveRejections + 1 then SignalStrength.lost
            else SignalStrength.poor,
          timestamp := 5000 } :=
  ⟨⟨fixZero_rejected, rfl⟩,
    rejectedFix_signal_ternary szF optsD fixZero 5000 stW snapW
      fixZero_rejected rfl⟩

lemma pushCap_getLast (hist : List PosEntry) (e : PosEntry) :
    (pushCap hist e 10).getLast? = some e := by
  simp only [pushCap]
  split_ifs with h
  · cases hist with
    | nil => simp at h
    | cons b t => simp
  · simp

/-- C9: a pushed fix that the validator accepts but whose accuracy is truthy
and exceeds `minAccuracy` publishes nothing — the snapshot, the last-valid
reference and the heading history are untouched — yet the fix has already
been appended to the bounded position history by the validator, and the
rejection counter ends at exactly 1 whatever its previous value, because
acceptance reset it to 0 before the accuracy filter incremented it. -/
theorem coarseAcceptedFix_only_bumps (sixZeros : ℚ → Bool)
    (opts : TrackingOptions) (fix : RawFix) (now : ℚ) (st : TrackingState)
    (a : ℚ)
    (hacc : (isValidLocation sixZeros fix.latitude fix.longitude fix.accuracy
      now st).1 = none)
    (hfa : fix.accuracy = some a)
    (ha0 : a ≠ 0)
    (hgt : opts.minAccuracy < a) :
    (handleWatchFix sixZeros opts fix now st).location = st.location ∧
    (handleWatchFix sixZeros opts fix now st).lastValidLocation =
      st.lastValidLocation ∧
    (handleWatchFix sixZeros opts fix now st).headingHistory =
      st.headingHistory ∧
    (handleWatchFix sixZeros opts fix now st).consecutiveRejections = 1 ∧
    (handleWatchFix sixZeros opts fix now st).locationHistory =
      pushCap st.locationHistory ⟨fix.latitude, fix.longitude, now⟩ 10 ∧
    (handleWatchFix sixZeros opts fix now st).locationHistory.getLast? =
      some ⟨fix.latitude, fix.longitude, now⟩ := by
  have hb := isValidLocation_accepted_state sixZeros fix.latitude
    fix.longitude fix.accuracy now st hacc
  have heq : isValidLocation sixZeros fix.latitude fix.longitude fix.accuracy
      now st = (none, acceptLocation fix.latitude fix.longitude now st) := by
    rw [← hacc, ← hb]
  rw [hfa] at heq
  simp only [handleWatchFix, hfa, heq, Option.getD_some]
  rw [if_pos (⟨ha0, hgt⟩ : qTruthy (some a) ∧ opts.minAccuracy < a)]
  simp [acceptLocation, pushCap_getLast]

/-- Candidate fix of the coarse-accuracy scenario: a plausible coordinate
near the last-accepted (40, -74), but with accuracy 50 m, above the default
30 m threshold. -/
def fixCoarse : RawFix :=
  { latitude := 40.5, longitude := -74.5, accuracy := some 50,
    heading := none, speed := none, timestamp := 2000 }

lemma fixCoarse_accepted :
    (isValidLocation szF fixCoarse.latitude fixCoarse.longitude
      fixCoarse.accuracy 500 stT).1 = none := by
  have h1 : ¬((40.5 : ℚ) = 0 ∨ (-74.5 : ℚ) = 0) := by norm_num
  have h2 : ¬((90 : ℚ) < |(40.5 : ℚ)| ∨ (180 : ℚ) < |(-74.5 : ℚ)|) := by
    rw [abs_of_pos (by norm_num : (0 : ℚ) < 40.5),
      abs_of_neg (by norm_num : (-74.5 : ℚ) < 0)]
    norm_num
  have h3 : ¬((40.5 : ℚ) ^ 2 + (-74.5 : ℚ) ^ 2 < 1 / 100) := by norm_num
  have h4 : ¬(qTruthy (some 50) ∧ 1000 < (some (50 : ℚ)).getD 0) := by
    rintro ⟨-, h⟩
    norm_num at h
  have h5 : ¬ teleportRejects (some lastT) 40.5 (-74.5) 500 := by
    simp only [teleportRejects, teleportViolation, lastT]
    rintro ⟨-, h, -⟩
    norm_num at h
  have h6 : ¬ roundJumpRejects (some lastT) 40.5 (-74.5) := by
    simp only [roundJumpRejects]
    rintro ⟨-, h | h⟩ <;> rw [round_eq] at h <;> norm_num at h <;>
      rw [abs_of_pos (by norm_num : (0 : ℚ) < 1 / 2)] at h <;> norm_num at h
  have h7 : ¬ stuckRejects ([] : List PosEntry) 40.5 (-74.5) := by
    simp [stuckRejects]
  have h9 : ¬ movingJumpRejects (some lastT) 40.5 (-74.5) 0 := by
    simp [movingJumpRejects, lastT]
  simp only [fixCoarse, stT, isValidLocation]
  rw [if_neg h1, if_neg h2, if_neg h3, if_neg h4, if_neg h5, if_neg h6,
    if_neg h7]
  simp only [szF, Bool.or_false, Bool.false_eq_true, if_false]
  rw [if_neg h9]

lemma fifty_ne_zero : (50 : ℚ) ≠ 0 := by norm_num

lemma minAccuracy_lt_fifty : optsD.minAccuracy < 50 := by
  simp only [optsD]
  norm_num

/-- Witness for C9: the accepted but coarse (50 m > 30 m) fix at
(40.5, -74.5) leaves the published snapshot untouched, lands in the position
history, and leaves the counter at exactly 1. -/
theorem coarseAcceptedFix_only_bumps_witness :
    ((isValidLocation szF fixCoarse.latitude fixCoarse.longitude
        fixCoarse.accuracy 500 stT).1 = none ∧
      fixCoarse.accuracy = some 50 ∧ (50 : ℚ) ≠ 0 ∧
      optsD.minAccuracy < 50) ∧
    ((handleWatchFix szF optsD fixCoarse 500 stT).location = stT.location ∧
      (handleWatchFix szF optsD fixCoarse 500 stT).lastValidLocation =
        stT.lastValidLocation ∧
      (handleWatchFix szF optsD fixCoarse 500 stT).headingHistory =
        stT.headingHistory ∧
      (handleWatchFix szF optsD fixCoarse 500 stT).consecutiveRejections =
        1 ∧
      (handleWatchFix szF optsD fixCoarse 500 stT).locationHistory =
        pushCap stT.locationHistory
          ⟨fixCoarse.latitude, fixCoarse.longitude, 500⟩ 10 ∧
      (handleWatchFix szF optsD fixCoarse 500 stT).locationHistory.getLast? =
        some ⟨fixCoarse.latitude, fixCoarse.longitude, 500⟩) :=
  ⟨⟨fixCoarse_accepted, rfl, fifty_ne_zero, minAccuracy_lt_fifty⟩,
    coarseAcceptedFix_only_bumps szF optsD fixCoarse 500 stT 50
      fixCoarse_accepted rfl fifty_ne_zero minAccuracy_lt_fifty⟩

/-- C10: `startTracking` resets the rejection counter and the position
history but leaves the heading history and the last-valid reference alone
(conjuncts on `startReset`, its entry bookkeeping); `stopTracking` changes
neither of them nor the snapshot; across a stop/start cycle whose first
provider answer is accepted, the restarted session's first smoothed heading
is computed over the heading history inherited from the previous session;
and only `resetTracking` clears the heading history (together with the rest
of the validation state). -/
theorem startTracking_preserves_heading_state (sixZeros : ℚ → Bool)
    (opts : TrackingOptions) (fix : RawFix) (now : ℚ)
    (rest : List (RawFix × ℚ)) (st : TrackingState)
    (hperm : st.hasPermission = some true)
    (hacc : (isValidLocation sixZeros fix.latitude fix.longitude fix.accuracy
      now (startReset (stopTracking st))).1 = none) :
    (startReset st).consecutiveRejections = 0 ∧
    (startReset st).locationHistory = [] ∧
    (startReset st).headingHistory = st.headingHistory ∧
    (startReset st).lastValidLocation = st.lastValidLocation ∧
    (stopTracking st).headingHistory = st.headingHistory ∧
    (stopTracking st).lastValidLocation = st.lastValidLocation ∧
    (stopTracking st).location = st.location ∧
    (startTracking sixZeros opts true ((fix, now) :: rest)
        (stopTracking st)).headingHistory =
      (smoothHeading (some (jsOrR fix.heading 0)) st.lastValidLocation
        st.headingHistory opts.headingSamples).2 ∧
    (startTracking sixZeros opts true ((fix, now) :: rest)
        (stopTracking st)).location.map LocationData.smoothedHeading =
      some (smoothHeading (some (jsOrR fix.heading 0)) st.lastValidLocation
        st.headingHistory opts.headingSamples).1 ∧
    (resetTracking st).headingHistory = [] ∧
    (resetTracking st).location = none ∧
    (resetTracking st).lastValidLocation = none ∧
    (resetTracking st).locationHistory = [] ∧
    (resetTracking st).consecutiveRejections = 0 := by
  have hb := isValidLocation_accepted_state sixZeros fix.latitude
    fix.longitude fix.accuracy now (startReset (stopTracking st)) hacc
  have heq : isValidLocation sixZeros fix.latitude fix.longitude fix.accuracy
      now (startReset (stopTracking st)) =
      (none, acceptLocation fix.latitude fix.longitude now
        (startReset (stopTracking st))) := by
    rw [← hacc, ← hb]
  have hrun : startTracking sixZeros opts true ((fix, now) :: rest)
      (stopTracking st) =
      startAcquisition sixZeros opts ((fix, now) :: rest)
        (stopTracking st) := by
    simp only [startTracking, stopTracking, hperm]
  refine ⟨rfl, rfl, rfl, rfl, rfl, rfl, rfl, ?_, ?_, rfl, rfl, rfl, rfl, rfl⟩
  all_goals
    rw [hrun]
    simp only [startAcquisition, show (10 : ℕ) = 9 + 1 from rfl,
      List.take_succ_cons, acquireLoop, heq]
    simp [acceptLocation, startReset, stopTracking]

lemma isValidLocation_accepts_fresh (sixZeros : ℚ → Bool) (lat lng : ℚ)
    (accuracy : Option ℚ) (now : ℚ) (st : TrackingState)
    (hlv : st.lastValidLocation = none) (hh : st.locationHistory = [])
    (h1 : ¬(lat = 0 ∨ lng = 0))
    (h2 : ¬(90 < |lat| ∨ 180 < |lng|))
    (h3 : ¬(lat ^ 2 + lng ^ 2 < 1 / 100))
    (h4 : ¬(qTruthy accuracy ∧ 1000 < accuracy.getD 0))
    (h8 : (sixZeros lat || sixZeros lng) = false) :
    (isValidLocation sixZeros lat lng accuracy now st).1 = none := by
  unfold isValidLocation
  rw [if_neg h1, if_neg h2, if_neg h3, if_neg h4, hlv, hh]
  simp [teleportRejects, roundJumpRejects, stuckRejects, movingJumpRejects,
    h8]

/-- Session state before the restart of the C10 scenario: stopped after a
previous session that left three heading samples in the buffer. -/
def stH : TrackingState :=
  { location := none, hasPermission := some true, isTracking := false,
    error := none, headingHistory := [80, 90, 100], lastValidLocation := none,
    locationHistory := [], consecutiveRejections := 3 }

lemma fixCoarse_accepted_fresh :
    (isValidLocation szF fixCoarse.latitude fixCoarse.longitude
      fixCoarse.accuracy 500 (startReset (stopTracking stH))).1 = none := by
  apply isValidLocation_accepts_fresh
  · rfl
  · rfl
  · simp only [fixCoarse]
    norm_num
  · simp only [fixCoarse]
    rw [abs_of_pos (by norm_num : (0 : ℚ) < 40.5),
      abs_of_neg (by norm_num : (-74.5 : ℚ) < 0)]
    norm_num
  · simp only [fixCoarse]
    norm_num
  · simp only [fixCoarse]
    rintro ⟨-, h⟩
    norm_num at h
  · rfl

/-- Witness for C10: restarting from the stopped session `stH`, whose
heading buffer holds [80, 90, 100], with an immediately accepted first fix,
smooths the first heading of the new session over those inherited samples. -/
theorem startTracking_preserves_heading_state_witness :
    (stH.hasPermission = some true ∧
      (isValidLocation szF fixCoarse.latitude fixCoarse.longitude
        fixCoarse.accuracy 500 (startReset (stopTracking stH))).1 = none) ∧
    ((startReset stH).consecutiveRejections = 0 ∧
      (startReset stH).locationHistory = [] ∧
      (startReset stH).headingHistory = stH.headingHistory ∧
      (startReset stH).lastValidLocation = stH.lastValidLocation ∧
      (stopTracking stH).headingHistory = stH.headingHistory ∧
      (stopTracking stH).lastValidLocation = stH.lastValidLocation ∧
      (stopTracking stH).location = stH.location ∧
      (startTracking szF optsD true [(fixCoarse, 500)]
          (stopTracking stH)).headingHistory =
        (smoothHeading (some (jsOrR fixCoarse.heading 0))
          stH.lastValidLocation stH.headingHistory
          optsD.headingSamples).2 ∧
      (startTracking szF optsD true [(fixCoarse, 500)]
          (stopTracking stH)).location.map LocationData.smoothedHeading =
        some (smoothHeading (some (jsOrR fixCoarse.heading 0))
          stH.lastValidLocation stH.headingHistory
          optsD.headingSamples).1 ∧
      (resetTracking stH).headingHistory = [] ∧
      (resetTracking stH).location = none ∧
      (resetTracking stH).lastValidLocation = none ∧
      (resetTracking stH).locationHistory = [] ∧
      (resetTracking stH).consecutiveRejections = 0) :=
  ⟨⟨rfl, fixCoarse_accepted_fresh⟩,
    startTracking_preserves_heading_state szF optsD fixCoarse 500 [] stH rfl
      fixCoarse_accepted_fresh⟩

/-- The good provider answer of the acquisition scenario:
(39.9042, 116.4074) with accuracy 8 m. -/
def fixGood : RawFix :=
  { latitude := 39.9042, longitude := 116.4074, accuracy := some 8,
    heading := none, speed := none, timestamp := 10000 }

/-- A fresh session: no snapshot, no history, permission granted. -/
def freshState : TrackingState :=
  { location := none, hasPermission := some true, isTracking := false,
    error := none, headingHistory := [], lastValidLocation := none,
    locationHistory := [], consecutiveRejections := 0 }

/-- Provider answers of the acquisition scenario: the (0, 0) sentinel on the
first nine attempts, `fixGood` on the tenth. -/
def inputsC2 : List (RawFix × ℚ) :=
  [(fixZero, 1000), (fixZero, 1000), (fixZero, 1000), (fixZero, 1000),
   (fixZero, 1000), (fixZero, 1000), (fixZero, 1000), (fixZero, 1000),
   (fixZero, 1000), (fixGood, 10000)]

lemma fixZero_step (st : TrackingState) :
    isValidLocation szF fixZero.latitude fixZero.longitude fixZero.accuracy
      1000 st = (some RejectReason.zeroCoord, bumpRejection st) := by
  simp [fixZero, isValidLocation]

lemma fixGood_step (st : TrackingState)
    (hlv : st.lastValidLocation = none) (hh : st.locationHistory = []) :
    isValidLocation szF fixGood.latitude fixGood.longitude fixGood.accuracy
      10000 st =
      (none, acceptLocation fixGood.latitude fixGood.longitude 10000 st) := by
  have hacc : (isValidLocation szF fixGood.latitude fixGood.longitude
      fixGood.accuracy 10000 st).1 = none := by
    apply isValidLocation_accepts_fresh szF _ _ _ _ st hlv hh
    · simp only [fixGood]
      norm_num
    · simp only [fixGood]
      rw [abs_of_pos (by norm_num : (0 : ℚ) < 39.9042),
        abs_of_pos (by norm_num : (0 : ℚ) < 116.4074)]
      norm_num
    · simp only [fixGood]
      norm_num
    · simp only [fixGood]
      rintro ⟨-, h⟩
      norm_num at h
    · rfl
  rw [← hacc, ← isValidLocation_accepted_state szF fixGood.latitude
    fixGood.longitude fixGood.accuracy 10000 st hacc]

lemma c2_run_props :
    (startTracking szF optsD true inputsC2 freshState).isTracking = true ∧
    (startTracking szF optsD true inputsC2 freshState).location.map
        LocationData.latitude = some 39.9042 ∧
    (startTracking szF optsD true inputsC2 freshState).location.map
        LocationData.longitude = some 116.4074 ∧
    (startTracking szF optsD true inputsC2 freshState).location.map
        LocationData.signalStrength = some SignalStrength.good ∧
    (startTracking szF optsD true inputsC2 freshState).consecutiveRejections
        = 0 := by
  have htake : inputsC2.take 10 = inputsC2 := rfl
  have hperm : startTracking szF optsD true inputsC2 freshState =
      startAcquisition szF optsD inputsC2 freshState := by
    simp only [startTracking, freshState]
  have hsig : getSignalStrength (some 8) 0 = SignalStrength.good := by
    norm_num [getSignalStrength, qTruthy]
  rw [hperm]
  simp only [startAcquisition, htake, inputsC2, acquireLoop, fixZero_step,
    bumpRejection, startReset, freshState]
  rw [fixGood_step _ rfl rfl]
  simp only [acceptLocation, pushCap, fixGood, hsig]
  norm_num

/-- Counterexample to C2 as stated: in the acquisition scenario the
published snapshot's signal is `good`, not `excellent` — accuracy 8 m falls
in the `≤ 15` band of the classifier, which assigns `excellent` only up to
5 m. -/
theorem start_scenario_not_excellent :
    (startTracking szF optsD true inputsC2 freshState).location.map
        LocationData.signalStrength ≠ some SignalStrength.excellent ∧
    (startTracking szF optsD true inputsC2 freshState).location.map
        LocationData.signalStrength = some SignalStrength.good := by
  refine ⟨?_, c2_run_props.2.2.2.1⟩
  rw [c2_run_props.2.2.2.1]
  simp

/-- C2 (amended): `start()` with permission granted and a provider that
answers (0, 0) on the first nine attempts and (39.9042, 116.4074) with
accuracy 8 on the tenth leaves the session `Tracking` with a published
snapshot at that coordinate, `signalStrength = good` (accuracy 8 m is in
the 5-15 m band), and rejection counter 0. -/
theorem start_scenario_publishes_good :
    (startTracking szF optsD true inputsC2 freshState).isTracking = true ∧
    (startTracking szF optsD true inputsC2 freshState).location.map
        LocationData.latitude = some 39.9042 ∧
    (startTracking szF optsD true inputsC2 freshState).location.map
        LocationData.longitude = some 116.4074 ∧
    (startTracking szF optsD true inputsC2 freshState).location.map
        LocationData.signalStrength = some SignalStrength.good ∧
    (startTracking szF optsD true inputsC2 freshState).consecutiveRejections
        = 0 :=
  c2_run_props
